import Mathlib

/-!
Verification of the emgo Go-to-C translator (package gotoc) against its
natural-language specification.  The definitions below are a shallow
embedding of the translator's emission functions from src/gotoc/stmt.go
(and, where noted, the older variant in src/unnamed/part_001).  Emission
functions that in Go write into a bytes.Buffer are modelled as pure
functions returning the written String; the unique-id counter of the
translator is threaded explicitly as a Nat.  Helpers that live in files
of the repository not present under src/ (the type printer, upath,
uniqueId, indent, varDecl, tupleName, the size oracle and the type-id
hash) are modelled from the spec as fields of an `Env` record or as
small spec-modelled functions, each marked as such.
-/

namespace Gotoc

/-- Basic kinds of the source language, after go/types.BasicKind; only the
kinds the embedded functions distinguish are carried. -/
inductive BasicKind
| boolK
| int8
| int16
| int32
| int64
| uint8
| uint16
| uint32
| uint64
| uintptr
| float32
| float64
| str
| untypedNil
| untypedInt
deriving DecidableEq

/-- Source-language types, after go/types.Type.  `named` carries the list of
the type's methods as (name, receiver type) pairs (go/types.Named.Method);
`iface` carries the interface's method set as (name, signature type) pairs. -/
inductive Typ
| basic (k : BasicKind)
| slice (elem : Typ)
| array (len : Int) (elem : Typ)
| pointer (elem : Typ)
| chanT (elem : Typ)
| mapT (key elem : Typ)
| tuple (ts : List Typ)
| iface (methods : List (String × Typ))
| named (nm : String) (under : Typ) (methods : List (String × Typ))
| signatureT

/-- Underlying type, after go/types.Type.Underlying: a named type's
underlying shape, every other type itself. -/
def underlying : Typ → Typ
| .named _ u _ => u
| t => t

/-- Whether a type is the basic untyped-nil type; transcribes the Go
comparisons `typ == types.Typ[types.UntypedNil]`. -/
def isUntypedNil : Typ → Bool
| .basic .untypedNil => true
| _ => false

/-- Fatal translation errors of the translator (spec section 7). -/
inductive Err
| tooLargeForInterface
| unsupportedConstruct
| frontendViolation
deriving DecidableEq

/-- Concatenate a list of strings. -/
def concatS : List String → String
| [] => ""
| s :: rest => s ++ concatS rest

/-- Join a list of strings with a separator, nothing for the empty list. -/
def joinSep (sep : String) : List String → String
| [] => ""
| [s] => s
| s :: rest => s ++ sep ++ joinSep sep rest

/-- Modelled from the spec: the translator's indentation helper
`cdd.indent` (its file is not under src/); one tab per indentation
level.  All claims are insensitive to the exact whitespace. -/
def indentS (il : Nat) : String := concatS (List.replicate il "\t")

/-- Transcription of `func eq` (src/gotoc/stmt.go:1671-1716): emission of
`==`/`!=` between two already-emitted operand strings, dispatching on the
(underlying) operand types.  The Go code writes into `w`; here the written
text is returned. -/
def eq (lhs op rhs : String) (ltyp rtyp : Typ) : String :=
  let typ := if isUntypedNil ltyp then rtyp else ltyp
  match underlying typ with
  | .slice _ =>
      let l := if isUntypedNil rtyp then lhs ++ ".arr" else "nil"
      let r := if isUntypedNil rtyp then "nil" else rhs ++ ".arr"
      "(" ++ l ++ " " ++ op ++ " " ++ r ++ ")"
  | .iface ms =>
      let sel := if ms.isEmpty then "" else ".interface"
      let neg := if op = "!=" then "!" else ""
      let l := if isUntypedNil rtyp then lhs ++ sel else "NILI"
      let r := if isUntypedNil rtyp then "NILI" else rhs ++ sel
      neg ++ "EQUALI(" ++ l ++ ", " ++ r ++ ")"
  | .basic k =>
      if k = .str then
        (if op = "!=" then "!" else "") ++ "equals(" ++ lhs ++ ", " ++ rhs ++ ")"
      else
        "(" ++ lhs ++ " " ++ op ++ " " ++ rhs ++ ")"
  | _ => "(" ++ lhs ++ " " ++ op ++ " " ++ rhs ++ ")"

/-- Modelled from the spec: the helpers the emission functions call whose
definitions are in files of the repository not under src/ (the type
printer `TypeStr`/`Type`, the declarator composer `dimFuncPtr`, the size
oracle `gtc.siz.Sizeof` and `gtc.sizPtr`, the type-id hash
`gtc.typeHash`, go/types.Identical, `upath`, `varDecl` and `tupleName`).
They are bundled as an abstract record: the theorems hold for every
instantiation, which is exactly the boundary the Go code draws. -/
structure Env where
  tstr : Typ → String × List String
  dimFuncPtr : String → List String → String
  siz : Typ → Nat
  sizPtr : Nat
  typeHash : String → List String → Nat
  identical : Typ → Typ → Bool
  upath : String → String
  varDecl : Typ → String → String → String
  tupleName : List Typ → String

/-- Modelled from the spec: `gtc.uniqueId` (its file is not under src/)
returns a freshly uniqued string on each call — freshness is forced by
its use to build distinct temporaries (`"tmp" + cdd.gtc.uniqueId()`).
It is modelled as the decimal value of a monotone counter, threaded
explicitly. -/
def uniqueId (uid : Nat) : String × Nat := (toString uid, uid + 1)

/-- Objects as the name mangler distinguishes them, after the dynamic
type switch in `CDD.Name` (src/gotoc/stmt.go:913-958): the nil object
(blank identifiers resolve to no object), an imported package name, a
function with a receiver (a method), and everything else (package-level
or local functions without receiver, variables, constants, type names)
carrying its name, owning package and locality. -/
inductive MObj
| nilObj
| pkgName (path : String)
| methodObj (recvT : Typ) (nm : String)
| plain (nm : String) (pkg : Option String) (isLocal : Bool)

/-- Transcription of `CDD.Name` (src/gotoc/stmt.go:913-958), the
`$`-separator name mangler.  The cross-unit bookkeeping (`addObject`) has
no effect on the emitted text and is dropped; the unique-id counter is
threaded explicitly because the `init` case consumes `uniqueId`. -/
def Name (env : Env) (obj : MObj) (uid : Nat) : String × Nat :=
  match obj with
  | .nilObj => ("_", uid)
  | .pkgName p => (env.upath p, uid)
  | .methodObj recvT nm =>
      let t := match recvT with | .pointer e => e | t => t
      ((env.tstr t).1 ++ "$" ++ nm, uid)
  | .plain nm pkg isLocal =>
      let pre := match pkg with
        | some p => if isLocal then "" else env.upath p ++ "$"
        | none => ""
      if nm = "init" then
        let u := uniqueId uid
        (pre ++ u.1 ++ nm, u.2)
      else
        (pre ++ nm ++ (if isLocal then "$" else ""), uid)

/-- Transcription of `CDD.Name` of src/unnamed/part_001:90-131, the older
`_`-separator name mangler.  It differs from the stmt.go variant in the
separator, in freshening blank identifiers (`__unused` plus a fresh
unique id) and in appending no trailing separator to locals; it has no
nil-object case (part_001's pipeline resolves blanks to objects named
`_`), so the nil object maps to the empty string here, unreachable
there. -/
def NameU (env : Env) (obj : MObj) (uid : Nat) : String × Nat :=
  match obj with
  | .nilObj => ("", uid)
  | .pkgName p => (env.upath p, uid)
  | .methodObj recvT nm =>
      let t := match recvT with | .pointer e => e | t => t
      ((env.tstr t).1 ++ "_" ++ nm, uid)
  | .plain nm pkg isLocal =>
      let pre := match pkg with
        | some p => if isLocal then "" else env.upath p ++ "_"
        | none => ""
      if nm = "_" then
        let u := uniqueId uid
        (pre ++ "__unused" ++ u.1, u.2)
      else if nm = "init" then
        let u := uniqueId uid
        (pre ++ u.1 ++ nm, u.2)
      else
        (pre ++ nm, uid)

/-- Concrete instantiation of the external helpers, used by the closed
witness and counterexample theorems. -/
def env0 : Env where
  tstr := fun _ => ("int", [])
  dimFuncPtr := fun nm _ => nm
  siz := fun t => match t with
    | .basic .int64 => 8
    | .basic .float64 => 8
    | .array n _ => 4 * n.toNat
    | _ => 4
  sizPtr := 4
  typeHash := fun _ _ => 49374
  identical := fun _ _ => false
  upath := fun s => s
  varDecl := fun _ nm es => "int " ++ nm ++ " = " ++ es ++ ";\n"
  tupleName := fun _ => "tup"

/-- Digits of a natural number in hexadecimal, transcribing
`strconv.FormatUint(u, 16)`. -/
def hexStr (n : Nat) : String := String.mk (Nat.toDigits 16 n)

/-- The suffix/guard part of `writeInt` (src/gotoc/stmt.go:826-849): the
decimal text of the value with the C suffix per kind, with the exact
`int32`/`int64` minima written in guarded form. -/
def writeIntCore (s : String) (k : BasicKind) : String :=
  match k with
  | .int32 => if s = "-2147483648" then "-2147483647L-1L" else s ++ "L"
  | .uint32 => s ++ "UL"
  | .int64 => if s = "-9223372036854775808" then "-9223372036854775807LL-1LL" else s ++ "LL"
  | .uint64 => s ++ "ULL"
  | _ => s

/-- Transcription of `writeInt` (src/gotoc/stmt.go:819-853), the integer
constant writer of the `$` variant.  `ev.String()` of an integer exact
value is its decimal text, modelled as `toString v`; the Go guard
`s[0] == '-'` holds exactly when `v < 0`. -/
def writeInt (v : Int) (k : BasicKind) : String :=
  if k = .uintptr then "0x" ++ hexStr v.toNat
  else
    let core := writeIntCore (toString v) k
    if v < 0 then "(" ++ core ++ ")" else core

/-- The unparenthesised part of `writeFloat` (src/gotoc/stmt.go:855-873):
numerator, optional `/denominator`, a trailing `.`, and `F` for 32-bit
floats. -/
def writeFloatCore (n d : Int) (k : BasicKind) : String :=
  toString n ++ (if d ≠ 1 then "/" ++ toString d else "") ++ "." ++
    (if k = .float32 then "F" else "")

/-- Transcription of `writeFloat` (src/gotoc/stmt.go:855-873): a float
exact value as numerator/denominator, parenthesised when negative. -/
def writeFloat (n d : Int) (k : BasicKind) : String :=
  if n < 0 then "(" ++ writeFloatCore n d k ++ ")" else writeFloatCore n d k

/-- Dereference one pointer level, transcribing the
`if t, ok := typ.(*types.Pointer); ok { typ = t.Elem() }` pattern. -/
def derefPtr : Typ → Typ
| .pointer t => t
| t => t

/-- The method set of a named type, `none` when the type is not named
(where the Go code's type assertion to *types.Named would panic). -/
def namedMethods : Typ → Option (List (String × Typ))
| .named _ _ ms => some ms
| _ => none

/-- The method list of a type whose underlying type is an interface,
transcribing `typ.Underlying().(*types.Interface)` type tests. -/
def isIfaceU (t : Typ) : Option (List (String × Typ)) :=
  match underlying t with
  | .iface ms => some ms
  | _ => none

/-- Transcription of `findMethod` (src/gotoc/stmt.go:1718-1726): the first
method of the named type's method list with the given name. -/
def findMethod (methods : List (String × Typ)) (nm : String) :
    Option (String × Typ) :=
  methods.find? (fun m => m.1 = nm)

/-- Mangled name of a method object, after the receiver branch of
`CDD.Name` (src/gotoc/stmt.go:924-939); methods never hit the `init`
case, so no counter is consumed. -/
def NameM (env : Env) (recvT : Typ) (nm : String) : String :=
  (Name env (.methodObj recvT nm) 0).1

/-- Effectful map over a list in the Except monad (the emission loop
aborts at the first fatal error, as the Go code does by exiting). -/
def mapME {α β : Type} (f : α → Except Err β) : List α → Except Err (List β)
| [] => .ok []
| a :: rest => do
    let b ← f a
    let bs ← mapME f rest
    .ok (b :: bs)

/-- One `.m = …` method-pointer field of a boxed interface struct literal,
transcribing the loop body of `interfaceExpr`
(src/gotoc/stmt.go:1796-1817); `il` is the indentation level of the
fields, `m` the interface method (name, signature type), `etyp` the
concrete boxed type. -/
def ifaceField (env : Env) (il : Nat) (etyp : Typ) (m : String × Typ) :
    Except Err String :=
  match namedMethods (derefPtr etyp) with
  | none => .error .frontendViolation
  | some cms =>
    match findMethod cms m.1 with
    | none => .error .frontendViolation
    | some (mn, recvT) =>
        if env.siz recvT ≠ env.sizPtr then
          .ok (",\n" ++ indentS il ++ "." ++ m.1 ++ " = " ++
            NameM env recvT mn ++ "$")
        else
          .ok (",\n" ++ indentS il ++ "." ++ m.1 ++ " = (" ++
            (env.tstr m.2).1 ++ env.dimFuncPtr "" (env.tstr m.2).2 ++ ")" ++
            NameM env recvT mn)

/-- Transcription of `CDD.interfaceExpr` (src/gotoc/stmt.go:1728-1825):
emission of an expression where the target type may be an interface,
inserting boxing.  `e` is the already-emitted expression text
(`cdd.ExprStr(expr, ityp)`), `etyp` the expression's static type and
`ityp` the target type (either may be absent, as in the Go code).  The
fatal `cdd.exit` on oversized values is the `tooLargeForInterface`
error; the Go panics on malformed frontend input (a missing method, a
non-named concrete type) are `frontendViolation`. -/
def interfaceExpr (env : Env) (il : Nat) (e : String) (etyp ityp : Option Typ) :
    Except Err String :=
  match ityp, etyp with
  | none, _ => .ok e
  | some _, none => .ok e
  | some it0, some et0 =>
    match isIfaceU it0 with
    | none => .ok e
    | some ms =>
      if env.identical it0 et0 then .ok e
      else if isUntypedNil et0 then .ok e
      else
        let eii := (isIfaceU et0).isSome
        if ¬eii ∧ env.siz et0 > env.sizPtr then .error .tooLargeForInterface
        else
          let ets := (env.tstr et0).1
          let tid := "0x" ++ hexStr (env.typeHash ets (env.tstr et0).2)
          if eii then
            if ms.isEmpty then .ok (e ++ ".interface")
            else
              .ok ("(\x7b\n" ++ indentS (il+1) ++ ets ++ " e = " ++ e ++ ";\n" ++
                indentS (il+1) ++ "(" ++ (env.tstr it0).1 ++ ")\x7b\n" ++
                indentS (il+2) ++ ".interface = e.interface" ++
                concatS (ms.map (fun m =>
                  ",\n" ++ indentS (il+2) ++ "." ++ m.1 ++ " = e." ++ m.1)) ++
                "\n" ++ indentS (il+1) ++ "\x7d\n" ++ indentS il ++ "\x7d)")
          else
            if ms.isEmpty then
              .ok ("INTERFACE(" ++ e ++ ", " ++ tid ++ ")")
            else
              match mapME (ifaceField env (il+1) et0) ms with
              | .error err => .error err
              | .ok fields =>
                .ok ("(" ++ (env.tstr it0).1 ++ ")\x7b\n" ++
                  indentS (il+1) ++ ".interface = INTERFACE(" ++ e ++ ", " ++ tid ++ ")" ++
                  concatS fields ++
                  "\n" ++ indentS il ++ "\x7d")

/-- Emission of the result expressions of a multi-value return against the
signature's tuple, transcribing the loop of `CDD.ReturnStmt`
(src/gotoc/stmt.go:35-40); a result without a tuple slot is the frontend
violation on which the Go code would panic in `tup.At(i)`. -/
def bindResults (env : Env) (il : Nat) :
    List (String × Option Typ) → List Typ → Except Err (List String)
| [], _ => .ok []
| (e, et) :: rest, t :: ts =>
    match interfaceExpr env il e et (some t) with
    | .error err => .error err
    | .ok v =>
      match bindResults env il rest ts with
      | .error err => .error err
      | .ok vs => .ok (v :: vs)
| _ :: _, [] => .error .frontendViolation

/-- Transcription of `CDD.ReturnStmt` (src/gotoc/stmt.go:12-44).
`resultT` is the printed result type of the enclosing function, `tup` the
signature's result tuple, `results` the return operands as (emitted
expression, static type) pairs; the returned Bool is the `end` flag
(an `end:` label is needed). -/
def ReturnStmt (env : Env) (il : Nat) (resultT : String) (tup : List Typ)
    (results : List (String × Option Typ)) : Except Err (String × Bool) :=
  match results with
  | [] =>
      if resultT = "void" then .ok ("return;\n", false)
      else .ok ("goto end;\n", true)
  | [(e, et)] =>
      let retTyp : Option Typ :=
        if tup.length ≠ 1 then some (.tuple tup) else tup.get? 0
      match interfaceExpr env il e et retTyp with
      | .error err => .error err
      | .ok v => .ok ("return " ++ v ++ ";\n", false)
  | rs =>
      match bindResults env il rs tup with
      | .error err => .error err
      | .ok vs =>
        .ok ("return (" ++ resultT ++ ")\x7b" ++ joinSep ", " vs ++ "\x7d;\n", false)

/-- Argument tail of a call emission: when `comma` is already set each
argument is preceded by `", "`, otherwise the first argument starts bare
(the comma flag logic of `CDD.CallExpr`, src/gotoc/stmt.go:1193-1211). -/
def argsJoin (comma : Bool) (args : List String) : String :=
  if comma then concatS (args.map (fun a => ", " ++ a))
  else joinSep ", " args

/-- Transcription of the *types.Signature branch of `CDD.CallExpr`
(src/gotoc/stmt.go:1160-1216).  `funs`, `recvs` and `recvt` are the
`cdd.funStr` results (the emitted callee, the emitted receiver and the
receiver's type), `xIsIdent` records whether the receiver expression
`e.Fun.(*ast.SelectorExpr).X` is a plain identifier, and `args` are the
already-emitted (non-nil) call arguments. -/
def CallExprSig (env : Env) (funs recvs : String) (recvt : Option Typ)
    (xIsIdent : Bool) (args : List String) : String :=
  match recvt with
  | some t =>
    if (isIfaceU t).isSome then
      if xIsIdent then
        recvs ++ "." ++ funs ++ "(" ++ recvs ++ ".val$" ++
          argsJoin true args ++ ")"
      else
        "(\x7b" ++ (env.tstr t).1 ++ " " ++ env.dimFuncPtr "r" (env.tstr t).2 ++
          " = " ++ recvs ++ "; r." ++ funs ++ "(r.val$" ++
          argsJoin true args ++ ")" ++ ";\x7d)"
    else
      (if funs = "" then recvs else "") ++ funs ++ "(" ++
        (if recvs ≠ "" then recvs else "") ++ argsJoin (recvs ≠ "") args ++ ")"
  | none =>
      (if funs = "" then recvs else "") ++ funs ++ "(" ++
        (if recvs ≠ "" then recvs else "") ++ argsJoin (recvs ≠ "") args ++ ")"

/-- Transcription of `cdd.label` (src/gotoc/stmt.go:46-53): the label is
written one indentation level to the left of the current level `il`,
followed by the suffix and `:;`. -/
def labelS (il : Nat) (label suffix : String) : String :=
  indentS (il - 1) ++ label ++ suffix ++ ":;\n"

/-- Transcription of `CDD.indexExpr` (src/gotoc/stmt.go:1456-1494):
indexing text for string/slice/array (pointer-to) operands; indexing a
map is not implemented (`cdd.notImplemented`), any other type panics. -/
def indexExpr (env : Env) (typ : Typ) (xs idxS : String) : Except Err String :=
  let pre := match typ with | .pointer _ => "(*" | _ => ""
  let post := match typ with | .pointer _ => ")" | _ => ""
  let t0 := derefPtr typ
  match underlying t0 with
  | .basic _ => .ok (pre ++ xs ++ ".str" ++ post ++ "[" ++ idxS ++ "]")
  | .slice e =>
      .ok (pre ++ "((" ++ (env.tstr e).1 ++
        env.dimFuncPtr "" ("*" :: (env.tstr e).2) ++ ")" ++ xs ++ ".arr)" ++
        post ++ "[" ++ idxS ++ "]")
  | .array _ _ => .ok (pre ++ xs ++ post ++ "[" ++ idxS ++ "]")
  | .mapT _ _ => .error .unsupportedConstruct
  | _ => .error .frontendViolation

/-- The first type switch of the range case (src/gotoc/stmt.go:292-301):
whether the operand type counts as an array and its compile-time length
text; a pointer to a non-array is the panic in the Go type assertion. -/
def rangeArrayLen : Typ → Except Err (Bool × String)
| .array n _ => .ok (true, toString n)
| .pointer (.array n _) => .ok (true, toString n)
| .pointer _ => .error .frontendViolation
| _ => .ok (false, "")

/-- Whether the operand type reaches the index-loop emission: the second
type switch of the range case (src/gotoc/stmt.go:322-369) only admits
slices, arrays and pointers; everything else is `cdd.notImplemented`. -/
def rangeOK : Typ → Bool
| .slice _ => true
| .array _ _ => true
| .pointer _ => true
| _ => false

/-- Element type as `t.(interface\x7b Elem() types.Type \x7d).Elem()`
resolves it for slices and arrays. -/
def elemT : Typ → Typ
| .slice e => e
| .array _ e => e
| .chanT e => e
| t => t

/-- The range value variable after the blank check
`if v, ok := s.Value.(*ast.Ident); ok && v.Name == "_" \x7b s.Value = nil \x7d`
(src/gotoc/stmt.go:303-305): absent when there is none or it is blank. -/
def rangeVal : Option (Bool × String) → Option String
| some (true, _) => none
| some (false, vs) => some vs
| none => none

/-- The operand text `xs` of a range statement (src/gotoc/stmt.go:307-316):
the mangled identifier when the operand is a plain identifier, the
materialised local `x` otherwise. -/
def rangeXS : Option String → String
| some nm => nm
| none => "x"

/-- Transcription of the *ast.RangeStmt case of `CDD.Stmt`
(src/gotoc/stmt.go:285-386).  `xIdent` is `some (mangled name)` when the
range operand is a plain identifier; `xStr` is the operand's emission for
the materialising declaration otherwise; `keyS` is the emitted key
expression; `value0` is the value variable as (is-blank, emitted text);
`bodyS`/`bodyEnd` are the body block's emission and end flag. -/
def RangeStmt (env : Env) (il : Nat) (label : String) (xt : Typ)
    (xIdent : Option String) (xStr keyS : String)
    (value0 : Option (Bool × String)) (isDefine : Bool)
    (bodyS : String) (bodyEnd : Bool) : Except Err (String × Bool) :=
  match rangeArrayLen xt with
  | .error err => .error err
  | .ok (array, xl0) =>
    let value : Option String := rangeVal value0
    let xs := rangeXS xIdent
    let declPart := match xIdent with
      | some _ => ""
      | none =>
          if value.isSome ∨ array = false then
            indentS (il+1) ++ env.varDecl xt xs xStr
          else ""
    let xl := if array then xl0 else "len(" ++ xs ++ ")"
    if rangeOK xt then
      let valueAssign : Except Err String := match value with
        | none => .ok ""
        | some vs =>
          match indexExpr env xt xs keyS with
          | .error err => .error err
          | .ok ix =>
            .ok ("\x7b\n" ++ indentS (il+2) ++
              (if isDefine then
                (env.tstr (elemT (derefPtr xt))).1 ++ " " ++
                  env.dimFuncPtr vs (env.tstr (elemT (derefPtr xt))).2
               else vs) ++ " = " ++ ix ++ ";\n" ++ indentS (il+2))
      match valueAssign with
      | .error err => .error err
      | .ok va =>
        .ok ("\x7b\n" ++ declPart ++
          indentS (il+1) ++ (if isDefine then "int " else "") ++ keyS ++ " = 0;\n" ++
          (if label ≠ "" then labelS (il+1) label "_continue" else "") ++
          indentS (il+1) ++ "for (; " ++ keyS ++ " < " ++ xl ++ "; ++" ++ keyS ++ ") " ++
          va ++ bodyS ++ "\n" ++
          (if value.isSome then indentS (il+1) ++ "\x7d\n" else "") ++
          indentS il ++ "\x7d\n" ++
          (if label ≠ "" then labelS il label "_break" else ""),
          bodyEnd)
    else .error .unsupportedConstruct

/-- Map over a list with an index counter. -/
def enumFrom {α β : Type} (f : Nat → α → β) : Nat → List α → List β
| _, [] => []
| i, a :: rest => f i a :: enumFrom f (i+1) rest

/-- The callee record `f` of `CDD.GoStmt` (src/gotoc/stmt.go:676-689):
(printed callee or local name, initialiser, carried type).  `rt` is the
receiver type returned by `funStr` (non-nil for a method call);
`ordinaryIdent` records that `c.Fun` is an identifier whose object is not
a *types.Var (an ordinary function). -/
def goFun (fs : String) (ft : Option Typ) (rt : Option Typ)
    (ordinaryIdent : Bool) : String × String × Option Typ :=
  match rt with
  | none => if ordinaryIdent then (fs, "", none) else ("_f", fs, ft)
  | some _ => (fs, "", none)

/-- The `argv` vector of `CDD.GoStmt` (src/gotoc/stmt.go:691-722): the
function value (when the callee is a function variable), the receiver
(for a method call), then one `_i` local per call argument, each as
(local name, initialiser, type). -/
def goArgv (fs : String) (ft : Option Typ) (rs : String) (rt : Option Typ)
    (ordinaryIdent : Bool) (args : List (String × Typ)) :
    List (String × String × Typ) :=
  (match (goFun fs ft rt ordinaryIdent).2.2 with
   | some t => [((goFun fs ft rt ordinaryIdent).1,
                 (goFun fs ft rt ordinaryIdent).2.1, t)]
   | none => []) ++
  (match rt with | some t => [("_r", rs, t)] | none => []) ++
  enumFrom (fun i a => ("_" ++ toString i, a.1, a.2)) 0 args

/-- Transcription of `CDD.GoStmt` (src/gotoc/stmt.go:666-778).  `fs`,
`ft`, `rs`, `rt` are the `cdd.funStr` results; `args` pairs each call
argument's emission (`cdd.ExprStr` at the parameter type) with its static
type. -/
def GoStmt (env : Env) (il : Nat) (fs : String) (ft : Option Typ)
    (rs : String) (rt : Option Typ) (ordinaryIdent : Bool)
    (args : List (String × Typ)) : String :=
  let f := goFun fs ft rt ordinaryIdent
  let argv := goArgv fs ft rs rt ordinaryIdent args
  if argv.isEmpty then
    "GO(" ++ f.1 ++ "());\n"
  else
    "\x7b\n" ++
    indentS (il+1) ++ "void wrap(" ++
    joinSep ", " (argv.map (fun a =>
      (env.tstr a.2.2).1 ++ " " ++ env.dimFuncPtr a.1 (env.tstr a.2.2).2)) ++
    ") \x7b\n" ++
    indentS (il+2) ++ "goready();\n" ++
    indentS (il+2) ++ f.1 ++ "(" ++
    joinSep ", " ((if f.2.2.isSome then argv.tail else argv).map (fun a => a.1)) ++
    ");\n" ++
    indentS (il+1) ++ "\x7d\n" ++
    concatS (argv.map (fun a =>
      indentS (il+1) ++ (env.tstr a.2.2).1 ++ " " ++
        env.dimFuncPtr a.1 (env.tstr a.2.2).2 ++ " = " ++ a.2.1 ++ ";\n")) ++
    indentS (il+1) ++ "GOWAIT(wrap(" ++
    joinSep ", " (argv.map (fun a => a.1)) ++ "));\n" ++
    indentS il ++ "\x7d\n"

/-- Assignment tokens as the `switch s.Tok` of the assignment case
distinguishes them (src/gotoc/stmt.go:160-171): `:=`, `&^=`, and every
other token carried by its printed text. -/
inductive ATok
| define
| andNot
| plain (s : String)
deriving DecidableEq

/-- The assignment operator text `atok` (src/gotoc/stmt.go:160-171). -/
def atokStr : ATok → String
| .define => " = "
| .andNot => " &= "
| .plain s => " " ++ s ++ " "

/-- The `&^=` rewriting `rhs[0] = "~(" + rhs[0] + ")"`
(src/gotoc/stmt.go:165-167). -/
def mutateAndNot : ATok → List String → List String
| .andNot, r :: rest => ("~(" ++ r ++ ")") :: rest
| .andNot, [] => []
| _, rs => rs

/-- The temporary phase of a parallel assignment
(src/gotoc/stmt.go:140-158): per component, a blank LHS emits
`(void)(rhs);` keeping its rhs, any other component declares a fresh
`tmpN` initialised with its rhs and replaces the rhs by `tmpN`.  Items
are (emitted lhs, emitted rhs, lhs type); returns (text, updated rhs
list, updated counter).  `first` suppresses the indent of the first
component, as `if i > 0 \x7b cdd.indent(w) \x7d` does. -/
def tempPhase (env : Env) (il : Nat) :
    List (String × String × Typ) → Nat → Bool → String × List String × Nat
| [], uid, _ => ("", [], uid)
| (l, r, t) :: rest, uid, first =>
    let ind := if first then "" else indentS il
    if l = "_" then
      let rest0 := tempPhase env il rest uid false
      (ind ++ "(void)(" ++ r ++ ");\n" ++ rest0.1, r :: rest0.2.1, rest0.2.2)
    else
      let tmp := "tmp" ++ (uniqueId uid).1
      let rest0 := tempPhase env il rest (uniqueId uid).2 false
      (ind ++ (env.tstr t).1 ++ " " ++ env.dimFuncPtr tmp (env.tstr t).2 ++
        " = " ++ r ++ ";\n" ++ rest0.1,
       tmp :: rest0.2.1, rest0.2.2)

/-- The store loop of an assignment (src/gotoc/stmt.go:172-193): blank
LHS components of a tuple assignment emit nothing, a blank LHS otherwise
emits `(void)(rhs);`, every other component emits `lhs atok rhs;`.
`started` is the Go `indent` flag: every emission after the first is
indented. -/
def storePhase (il : Nat) (atok : String) (rhsIsTuple : Bool) :
    List (String × String) → Bool → String
| [], _ => ""
| (l, r) :: rest, started =>
    if l = "_" ∧ rhsIsTuple then storePhase il atok rhsIsTuple rest started
    else
      (if started then indentS il else "") ++
      (if l = "_" then "(void)(" ++ r ++ ");\n"
       else l ++ atok ++ r ++ ";\n") ++
      storePhase il atok rhsIsTuple rest true

/-- Transcription of the non-tuple path of the *ast.AssignStmt case of
`CDD.Stmt` (src/gotoc/stmt.go:140-193): the temporary phase runs exactly
when there are as many RHS as LHS, more than one LHS and the token is not
`:=`; then the store loop.  Items are (emitted lhs, emitted rhs, lhs
type) triples — the lhs/rhs emissions of lines 100-138 are the
abstraction boundary. -/
def AssignNonTuple (env : Env) (il uid : Nat) (tok : ATok)
    (items : List (String × String × Typ)) : String :=
  let tp :=
    if 1 < items.length ∧ tok ≠ ATok.define then
      let p := tempPhase env il items uid true
      (p.1 ++ indentS il, p.2.1)
    else ("", items.map (fun it => it.2.1))
  let rhs := mutateAndNot tok tp.2
  tp.1 ++ storePhase il (atokStr tok) false ((items.map (fun it => it.1)).zip rhs) false

/-- Transcription of the tuple path of the *ast.AssignStmt case of
`CDD.Stmt` (src/gotoc/stmt.go:81-99 with the store loop of lines
172-193): the tuple-returning call `rhs0` is evaluated once into a fresh
`tmpN` of the tuple struct `tupName`, each non-blank LHS is bound from
`tmpN._i`, and blank components emit no code. -/
def AssignTuple (il uid : Nat) (tok : ATok) (tupName rhs0 : String)
    (lhs : List String) : String :=
  let tmp := "tmp" ++ (uniqueId uid).1
  let rhs := enumFrom (fun i _ => tmp ++ "._" ++ toString i) 0 lhs
  tupName ++ " " ++ tmp ++ " = " ++ rhs0 ++ ";\n" ++ indentS il ++
  storePhase il (atokStr tok) true (lhs.zip rhs) false

/-- Claim-side rendering (follows the words of claim C7, for comparison
with the source transcription): each component's RHS declared into a
given temporary, in order. -/
def declsWith (env : Env) (il : Nat) (first : Bool) :
    List (String × Typ) → List String → String
| [], _ => ""
| _ :: _, [] => ""
| (r, t) :: rest, tmp :: tmps =>
    (if first then "" else indentS il) ++ (env.tstr t).1 ++ " " ++
      env.dimFuncPtr tmp (env.tstr t).2 ++ " = " ++ r ++ ";\n" ++
      declsWith env il false rest tmps

/-- Claim-side rendering (follows the words of claim C7): the stores,
each LHS assigned its component's temporary, after all declarations. -/
def storesWith (il : Nat) (atok : String) (started : Bool) :
    List String → List String → String
| [], _ => ""
| _ :: _, [] => ""
| l :: ls, tmp :: tmps =>
    (if started then indentS il else "") ++ l ++ atok ++ tmp ++ ";\n" ++
    storesWith il atok true ls tmps

/-- The translator's temporary names for `n` consecutive unique ids. -/
def tmpList : Nat → Nat → List String
| _, 0 => []
| uid, Nat.succ n => ("tmp" ++ toString uid) :: tmpList (uid+1) n

/-- Count of the non-blank components of a parallel assignment — the
number of unique ids its temporary phase consumes. -/
def nbCount : List (String × String × Typ) → Nat
| [] => 0
| (l, _, _) :: rest => (if l = "_" then 0 else 1) + nbCount rest

/-- Claim-side rendering (follows the words of amended claim C7): the
temporary phase of a parallel assignment that may contain blank LHS
components — every non-blank component declares the next fresh temporary
`tmpN` from its RHS, every blank component only wraps its RHS in
`(void)(…)` and consumes no unique id. -/
def mixedTemps (env : Env) (il : Nat) :
    Bool → List (String × String × Typ) → Nat → String
| _, [], _ => ""
| first, (l, r, t) :: rest, uid =>
    (if first then "" else indentS il) ++
    (if l = "_" then "(void)(" ++ r ++ ");\n"
     else (env.tstr t).1 ++ " " ++
       env.dimFuncPtr ("tmp" ++ toString uid) (env.tstr t).2 ++ " = " ++ r ++ ";\n") ++
    mixedTemps env il false rest (if l = "_" then uid else uid + 1)

/-- The per-component right-hand sides left by the temporary phase: the
temporary's name for a non-blank component, the unchanged RHS text for a
blank one. -/
def mixedRhs : List (String × String × Typ) → Nat → List String
| [], _ => []
| (l, r, _) :: rest, uid =>
    if l = "_" then r :: mixedRhs rest uid
    else ("tmp" ++ toString uid) :: mixedRhs rest (uid + 1)

/-- Claim-side rendering (follows the words of amended claim C7): the
store loop of a parallel assignment that may contain blank LHS
components — every non-blank component stores from its temporary, every
blank component emits `(void)(…)` of its original RHS. -/
def mixedStores (il : Nat) (atok : String) :
    Bool → List (String × String × Typ) → Nat → String
| _, [], _ => ""
| started, (l, r, _) :: rest, uid =>
    (if started then indentS il else "") ++
    (if l = "_" then "(void)(" ++ r ++ ");\n"
     else l ++ atok ++ ("tmp" ++ toString uid) ++ ";\n") ++
    mixedStores il atok true rest (if l = "_" then uid else uid + 1)

/-- Formalisation of claim C7 at one input: the emitted text consists of
per-component temporary declarations (one per RHS, in some choice of
temporary names) followed — only then — by the stores from those
temporaries. -/
def C7ClaimForm (env : Env) (il : Nat) (items : List (String × String × Typ))
    (out : String) : Prop :=
  ∃ tmps : List String, tmps.length = items.length ∧
    out = declsWith env il true (items.map (fun x => (x.2.1, x.2.2))) tmps ++
      indentS il ++ storesWith il " = " false (items.map (fun x => x.1)) tmps

theorem isUntypedNil_nilBasic : isUntypedNil (.basic .untypedNil) = true := rfl

theorem isUntypedNil_iface (ms : List (String × Typ)) :
    isUntypedNil (.iface ms) = false := rfl

theorem isUntypedNil_slice (t : Typ) : isUntypedNil (.slice t) = false := rfl

theorem isUntypedNil_strBasic : isUntypedNil (.basic .str) = false := rfl

/-- String append is associative (helper for normalising emitted text). -/
theorem strAssoc (a b c : String) : a ++ b ++ c = a ++ (b ++ c) := by
  rcases a with ⟨a⟩; rcases b with ⟨b⟩; rcases c with ⟨c⟩
  show String.mk ((a ++ b) ++ c) = String.mk (a ++ (b ++ c))
  rw [List.append_assoc]

/-- Data of an appended string (helper for distinguishing emitted text). -/
theorem strData (a b : String) : (a ++ b).data = a.data ++ b.data := by
  rcases a with ⟨a⟩; rcases b with ⟨b⟩; rfl

/-- C1 counterexample: for `a == b` with both operands of a non-empty
interface type, the translator does not emit `EQUALI(a.interface,
b.interface)` as the claim states; it discards the left operand and emits
`EQUALI(NILI, b.interface)`. -/
theorem eq_iface_iface_counterexample :
    eq "a" "==" "b" (.iface [("m", .signatureT)]) (.iface [("m", .signatureT)])
      = "EQUALI(NILI, b.interface)" ∧
    eq "a" "==" "b" (.iface [("m", .signatureT)]) (.iface [("m", .signatureT)])
      ≠ "EQUALI(a.interface, b.interface)" := by
  constructor
  · rfl
  · decide

/-- C1 amended: equality emission as the code implements it.  Between an
interface operand and untyped nil the emission is `[!]EQUALI(x.interface,
NILI)` (nil on the right) or `[!]EQUALI(NILI, x.interface)` (nil on the
left), with the `.interface` selector omitted for empty interfaces; when
both operands are interfaces the left operand is discarded and
`[!]EQUALI(NILI, b.interface)` is emitted; a slice is compared against nil
through its `.arr` pointer; two strings compare via `equals(a, b)`,
negated for `!=`. -/
theorem eq_emission_amended (lhs rhs : String) (ms : List (String × Typ))
    (et rt : Typ) (hrt : isUntypedNil rt = false) :
    eq lhs "==" rhs (.iface ms) (.basic .untypedNil)
      = "EQUALI(" ++ lhs ++ (if ms.isEmpty then "" else ".interface") ++ ", NILI)" ∧
    eq lhs "!=" rhs (.iface ms) (.basic .untypedNil)
      = "!EQUALI(" ++ lhs ++ (if ms.isEmpty then "" else ".interface") ++ ", NILI)" ∧
    eq lhs "==" rhs (.basic .untypedNil) (.iface ms)
      = "EQUALI(NILI, " ++ rhs ++ (if ms.isEmpty then "" else ".interface") ++ ")" ∧
    eq lhs "==" rhs (.iface ms) rt
      = "EQUALI(NILI, " ++ rhs ++ (if ms.isEmpty then "" else ".interface") ++ ")" ∧
    eq lhs "!=" rhs (.iface ms) rt
      = "!EQUALI(NILI, " ++ rhs ++ (if ms.isEmpty then "" else ".interface") ++ ")" ∧
    eq lhs "==" rhs (.slice et) (.basic .untypedNil)
      = "(" ++ lhs ++ ".arr == nil)" ∧
    eq lhs "!=" rhs (.slice et) (.basic .untypedNil)
      = "(" ++ lhs ++ ".arr != nil)" ∧
    eq lhs "==" rhs (.basic .untypedNil) (.slice et)
      = "(nil == " ++ rhs ++ ".arr)" ∧
    eq lhs "==" rhs (.basic .str) (.basic .str)
      = "equals(" ++ lhs ++ ", " ++ rhs ++ ")" ∧
    eq lhs "!=" rhs (.basic .str) (.basic .str)
      = "!equals(" ++ lhs ++ ", " ++ rhs ++ ")" := by
  refine ⟨?_, ?_, ?_, ?_, ?_, ?_, ?_, ?_, ?_, ?_⟩ <;>
    simp [eq, underlying, hrt, isUntypedNil_nilBasic, isUntypedNil_iface,
      isUntypedNil_slice, isUntypedNil_strBasic, strAssoc]

/-- C1 amended witness: the amended equality emission at concrete inputs. -/
theorem eq_emission_amended_witness :
    isUntypedNil (.iface []) = false ∧
    eq "a" "==" "b" (.iface [("m", .signatureT)]) (.iface [])
      = "EQUALI(NILI, b.interface)" := by
  refine ⟨rfl, ?_⟩
  exact (eq_emission_amended "a" "b" [("m", .signatureT)] .signatureT
    (.iface []) rfl).2.2.2.1

/-- C5 counterexample: mangling a function named `init` twice in the same
run yields two different C identifiers, because the `init` case consumes
a fresh unique id on every call (src/gotoc/stmt.go:948-950). -/
theorem Name_init_counterexample :
    (Name env0 (.plain "init" none false) 0).1 = "0init" ∧
    (Name env0 (.plain "init" none false)
      (Name env0 (.plain "init" none false) 0).2).1 = "1init" ∧
    (Name env0 (.plain "init" none false) 0).1 ≠
      (Name env0 (.plain "init" none false)
        (Name env0 (.plain "init" none false) 0).2).1 := by
  refine ⟨rfl, rfl, ?_⟩
  decide

/-- C5 amended: in the `$`-separator mangler of stmt.go, name mangling is
deterministic within a run for every object that is not a receiverless
function named `init` — in particular blank identifiers mangle
deterministically (to `_` when they resolve to no object, to `_$` as
locals) — while `init` consumes a fresh unique id at each mangling; in
the `_`-separator variant of part_001, mangling is deterministic for
every object named neither `init` nor `_`, and both blank identifiers
(to `__unused` plus the fresh id) and `init` functions consume a fresh
unique id at each mangling and so are not stable. -/
theorem Name_deterministic_amended (env : Env) (obj : MObj) (uid₁ uid₂ : Nat) :
    ((∀ nm pkg l, obj = .plain nm pkg l → nm ≠ "init") →
      (Name env obj uid₁).1 = (Name env obj uid₂).1) ∧
    ((∀ nm pkg l, obj = .plain nm pkg l → nm ≠ "init" ∧ nm ≠ "_") →
      (NameU env obj uid₁).1 = (NameU env obj uid₂).1) ∧
    (∀ (pkg : Option String) (lcl : Bool) (uid : Nat),
      NameU env (.plain "_" pkg lcl) uid =
        ((match pkg with
          | some p => if lcl then "" else env.upath p ++ "_"
          | none => "") ++ "__unused" ++ (uniqueId uid).1, uid + 1)) ∧
    (∀ (pkg : Option String) (lcl : Bool) (uid : Nat),
      NameU env (.plain "init" pkg lcl) uid =
        ((match pkg with
          | some p => if lcl then "" else env.upath p ++ "_"
          | none => "") ++ (uniqueId uid).1 ++ "init", uid + 1)) := by
  refine ⟨?_, ?_, ?_, ?_⟩
  · intro h
    cases obj with
    | nilObj => rfl
    | pkgName p => rfl
    | methodObj recvT nm => rfl
    | plain nm pkg l =>
        have hnm : nm ≠ "init" := h nm pkg l rfl
        simp [Name, hnm]
  · intro h
    cases obj with
    | nilObj => rfl
    | pkgName p => rfl
    | methodObj recvT nm => rfl
    | plain nm pkg l =>
        have hnm := h nm pkg l rfl
        simp [NameU, hnm.1, hnm.2]
  · intro pkg lcl uid
    simp [NameU, uniqueId]
  · intro pkg lcl uid
    simp [NameU, uniqueId]

/-- C5 amended witness: determinism of both manglers applied to a local
blank identifier (`$` variant), a package-level variable (both
variants), and the part_001 freshening of the blank identifier at two
counter states yielding two different identifiers. -/
theorem Name_deterministic_amended_witness :
    (Name env0 (.plain "_" none true) 3).1 = (Name env0 (.plain "_" none true) 7).1 ∧
    (Name env0 (.plain "x" (some "pkg/path") false) 0).1 =
      (Name env0 (.plain "x" (some "pkg/path") false) 5).1 ∧
    (NameU env0 (.plain "x" (some "pkg/path") false) 0).1 =
      (NameU env0 (.plain "x" (some "pkg/path") false) 5).1 ∧
    NameU env0 (.plain "_" none true) 0 = ("__unused0", 1) ∧
    NameU env0 (.plain "_" none true) 1 = ("__unused1", 2) ∧
    (NameU env0 (.plain "_" none true) 0).1 ≠
      (NameU env0 (.plain "_" none true) 1).1 := by
  refine ⟨(Name_deterministic_amended env0 (.plain "_" none true) 3 7).1
      (by intro nm pkg l he; cases he; decide),
    (Name_deterministic_amended env0 (.plain "x" (some "pkg/path") false) 0 5).1
      (by intro nm pkg l he; cases he; decide),
    (Name_deterministic_amended env0 (.plain "x" (some "pkg/path") false) 0 5).2.1
      (by intro nm pkg l he; cases he; exact ⟨by decide, by decide⟩),
    ?_, ?_, by decide⟩
  · have h := (Name_deterministic_amended env0 (.plain "_" none true) 0 0).2.2.1
      none true 0
    simpa using h
  · have h := (Name_deterministic_amended env0 (.plain "_" none true) 0 0).2.2.1
      none true 1
    simpa using h

/-- C9: the constant writer emits the smallest 32-bit signed integer in
the guarded form `(-2147483647L-1L)` (not as `-2147483648L`), the
64-bit minimum analogously with `LL`, and every negative integer (of a
non-uintptr kind) or float literal is enclosed in parentheses. -/
theorem writeInt_min_guard_and_parens :
    writeInt (-2147483648) .int32 = "(-2147483647L-1L)" ∧
    writeInt (-9223372036854775808) .int64 = "(-9223372036854775807LL-1LL)" ∧
    (∀ v : Int, ∀ k : BasicKind, v < 0 → k ≠ .uintptr →
      writeInt v k = "(" ++ writeIntCore (toString v) k ++ ")") ∧
    (∀ n d : Int, ∀ k : BasicKind, n < 0 →
      writeFloat n d k = "(" ++ writeFloatCore n d k ++ ")") := by
  refine ⟨rfl, rfl, ?_, ?_⟩
  · intro v k hv hk
    simp [writeInt, hv, hk]
  · intro n d k hn
    simp [writeFloat, hn]

/-- C9 witness: the parenthesisation clauses applied at concrete negative
literals. -/
theorem writeInt_min_guard_and_parens_witness :
    writeInt (-5) .int32 = "(-5L)" ∧ writeFloat (-3) 2 .float32 = "(-3/2.F)" :=
  ⟨by rw [writeInt_min_guard_and_parens.2.2.1 (-5) .int32 (by decide) (by decide)]; rfl,
   by rw [writeInt_min_guard_and_parens.2.2.2 (-3) 2 .float32 (by decide)]; rfl⟩

/-- C2: boxing a non-interface, non-nil expression into an interface
target fails with the fatal TooLargeForInterface error exactly when the
value's size exceeds a pointer's; otherwise an empty target yields
`INTERFACE(e, typeid(E))` and a non-empty target a struct literal whose
`.interface` field is `INTERFACE(e, typeid(E))` followed by one
method-pointer field per interface method. -/
theorem interfaceExpr_box_spec (env : Env) (il : Nat) (e : String)
    (et0 it0 : Typ) (ms : List (String × Typ)) (fields : List String)
    (het : isIfaceU et0 = none) (hnn : isUntypedNil et0 = false)
    (hms : isIfaceU it0 = some ms) (hid : env.identical it0 et0 = false)
    (hf : mapME (ifaceField env (il+1) et0) ms = .ok fields) :
    (interfaceExpr env il e (some et0) (some it0) = .error .tooLargeForInterface
      ↔ env.siz et0 > env.sizPtr) ∧
    (env.siz et0 ≤ env.sizPtr → ms = [] →
      interfaceExpr env il e (some et0) (some it0) =
        .ok ("INTERFACE(" ++ e ++ ", " ++
          ("0x" ++ hexStr (env.typeHash (env.tstr et0).1 (env.tstr et0).2)) ++ ")")) ∧
    (env.siz et0 ≤ env.sizPtr → ms ≠ [] →
      interfaceExpr env il e (some et0) (some it0) =
        .ok ("(" ++ (env.tstr it0).1 ++ ")\x7b\n" ++
          indentS (il+1) ++ ".interface = INTERFACE(" ++ e ++ ", " ++
          ("0x" ++ hexStr (env.typeHash (env.tstr et0).1 (env.tstr et0).2)) ++ ")" ++
          concatS fields ++
          "\n" ++ indentS il ++ "\x7d")) := by
  have heii : (isIfaceU et0).isSome = false := by rw [het]; rfl
  have hok : env.siz et0 ≤ env.sizPtr →
      interfaceExpr env il e (some et0) (some it0) ≠
        .error .tooLargeForInterface := by
    intro hle
    cases hms2 : ms.isEmpty with
    | true => simp [interfaceExpr, hms, hid, hnn, heii, Nat.not_lt.mpr hle, hms2]
    | false => simp [interfaceExpr, hms, hid, hnn, heii, Nat.not_lt.mpr hle, hms2, hf]
  refine ⟨?_, ?_, ?_⟩
  · constructor
    · intro hfail
      by_contra hgt
      exact hok (not_lt.mp hgt) hfail
    · intro hgt
      simp [interfaceExpr, hms, hid, hnn, heii, hgt]
  · intro hle hempty
    subst hempty
    simp [interfaceExpr, hms, hid, hnn, heii, Nat.not_lt.mpr hle, strAssoc]
  · intro hle hne
    have hms' : ms.isEmpty = false := by
      cases ms with
      | nil => exact absurd rfl hne
      | cons a rest => rfl
    simp [interfaceExpr, hms, hid, hnn, heii, Nat.not_lt.mpr hle, hms', hf, strAssoc]

/-- C2 witness: boxing an `int`-backed named type with one pointer-sized
method into a one-method interface, and the too-large failure for an
8-byte value on a 4-byte-pointer target. -/
theorem interfaceExpr_box_spec_witness :
    interfaceExpr env0 0 "x"
        (some (.named "T0" (.basic .int32) [("m", .named "T0" (.basic .int32) [])]))
        (some (.iface [("m", .signatureT)])) =
      .ok "(int)\x7b\n\t.interface = INTERFACE(x, 0xc0de),\n\t.m = (int)int$m\n\x7d" ∧
    interfaceExpr env0 0 "v" (some (.basic .int64)) (some (.iface [])) =
      .error .tooLargeForInterface := by
  constructor
  · have h := (interfaceExpr_box_spec env0 0 "x"
      (.named "T0" (.basic .int32) [("m", .named "T0" (.basic .int32) [])])
      (.iface [("m", .signatureT)]) [("m", .signatureT)] [",\n\t.m = (int)int$m"]
      rfl rfl rfl rfl rfl).2.2 (by decide) (by simp)
    rw [h]
    rfl
  · exact (interfaceExpr_box_spec env0 0 "v" (.basic .int64) (.iface []) [] []
      rfl rfl rfl rfl rfl).1.mpr (by decide)

/-- C6: a return with zero results emits `return;` in a void function and
`goto end;` (setting the end flag) in a result-bearing one; one result
emits `return e;`; two or more results emit `return (R)\x7be1, …, en\x7d;`
with `R` the printed tuple struct of the signature. -/
theorem ReturnStmt_emission (env : Env) (il : Nat) (resultT : String)
    (tup : List Typ) :
    (resultT = "void" →
      ReturnStmt env il resultT tup [] = .ok ("return;\n", false)) ∧
    (resultT ≠ "void" →
      ReturnStmt env il resultT tup [] = .ok ("goto end;\n", true)) ∧
    (∀ e et v,
      interfaceExpr env il e et
          (if tup.length ≠ 1 then some (.tuple tup) else tup.get? 0) = .ok v →
      ReturnStmt env il resultT tup [(e, et)] =
        .ok ("return " ++ v ++ ";\n", false)) ∧
    (∀ r1 r2 rs vs,
      bindResults env il (r1 :: r2 :: rs) tup = .ok vs →
      ReturnStmt env il resultT tup (r1 :: r2 :: rs) =
        .ok ("return (" ++ resultT ++ ")\x7b" ++ joinSep ", " vs ++ "\x7d;\n",
          false)) := by
  refine ⟨?_, ?_, ?_, ?_⟩
  · intro hv; simp [ReturnStmt, hv]
  · intro hv; simp [ReturnStmt, hv]
  · intro e et v hie
    simp only [ne_eq, ite_not, List.get?_eq_getElem?] at hie
    simp [ReturnStmt, hie]
  · intro r1 r2 rs vs hb
    rcases r1 with ⟨e1, et1⟩; rcases r2 with ⟨e2, et2⟩
    simp [ReturnStmt, hb]

/-- C6 witness: the four return forms at concrete inputs, including the
spec's two-result scenario `return (pkg$div$out)\x7b(a/b), (a%b)\x7d;`. -/
theorem ReturnStmt_emission_witness :
    ReturnStmt env0 1 "void" [] [] = .ok ("return;\n", false) ∧
    ReturnStmt env0 1 "int" [.basic .int32] [] = .ok ("goto end;\n", true) ∧
    ReturnStmt env0 1 "int" [.basic .int32] [("x", some (.basic .int32))] =
      .ok ("return x;\n", false) ∧
    ReturnStmt env0 1 "pkg$div$out" [.basic .int32, .basic .int32]
        [("(a/b)", some (.basic .int32)), ("(a%b)", some (.basic .int32))] =
      .ok ("return (pkg$div$out)\x7b(a/b), (a%b)\x7d;\n", false) := by
  refine ⟨(ReturnStmt_emission env0 1 "void" []).1 rfl,
    (ReturnStmt_emission env0 1 "int" [.basic .int32]).2.1 (by decide),
    ?_, ?_⟩
  · have h := (ReturnStmt_emission env0 1 "int" [.basic .int32]).2.2.1
      "x" (some (.basic .int32)) "x" (by rfl)
    simpa using h
  · have h := (ReturnStmt_emission env0 1 "pkg$div$out"
      [.basic .int32, .basic .int32]).2.2.2
      ("(a/b)", some (.basic .int32)) ("(a%b)", some (.basic .int32)) []
      ["(a/b)", "(a%b)"] (by rfl)
    simpa using h

/-- C3 counterexample: a call of an interface method on a plain-identifier
receiver `x` emits `x.m(x.val$, …)` — the boxed-value field the code
passes is spelled `val$`, not `interface` as the claim states. -/
theorem CallExprSig_val_counterexample :
    CallExprSig env0 "m" "x" (some (.iface [("m", .signatureT)])) true []
      = "x.m(x.val$)" ∧
    CallExprSig env0 "m" "x" (some (.iface [("m", .signatureT)])) true []
      ≠ "x.m(x.interface)" := by
  constructor
  · rfl
  · decide

/-- C3 amended: a call of a method with an interface receiver emits
`r.m(r.val$, args…)`; when the receiver expression is a plain identifier
it is used directly, otherwise it is materialised once into a local `r`
inside a GNU statement expression `(\x7bT r = recv; r.m(r.val$, args…);\x7d)`,
so the receiver expression is emitted (evaluated) exactly once. -/
theorem CallExprSig_iface_amended (env : Env) (funs recvs : String)
    (t : Typ) (ms : List (String × Typ)) (args : List String)
    (ht : isIfaceU t = some ms) :
    CallExprSig env funs recvs (some t) true args =
      recvs ++ "." ++ funs ++ "(" ++ recvs ++ ".val$" ++
        argsJoin true args ++ ")" ∧
    CallExprSig env funs recvs (some t) false args =
      "(\x7b" ++ (env.tstr t).1 ++ " " ++ env.dimFuncPtr "r" (env.tstr t).2 ++
        " = " ++ recvs ++ "; r." ++ funs ++ "(r.val$" ++
        argsJoin true args ++ ")" ++ ";\x7d)" := by
  constructor <;> simp [CallExprSig, ht]

/-- C3 amended witness: the two receiver forms at concrete inputs. -/
theorem CallExprSig_iface_amended_witness :
    CallExprSig env0 "m" "f()" (some (.iface [("m", .signatureT)])) false ["a"]
      = "(\x7bint r = f(); r.m(r.val$, a);\x7d)" ∧
    CallExprSig env0 "m" "x" (some (.iface [("m", .signatureT)])) true ["a"]
      = "x.m(x.val$, a)" := by
  have h := CallExprSig_iface_amended env0 "m" "f()" (.iface [("m", .signatureT)])
    [("m", .signatureT)] ["a"] rfl
  have h2 := CallExprSig_iface_amended env0 "m" "x" (.iface [("m", .signatureT)])
    [("m", .signatureT)] ["a"] rfl
  exact ⟨by rw [h.2]; rfl, by rw [h2.1]; rfl⟩

/-- C4 counterexample: ranging over a string does not emit an index loop
as the claim states; the statement translator's type switch only admits
slices, arrays and pointers, so a string operand raises the fatal
not-implemented (UnsupportedConstruct) error. -/
theorem RangeStmt_string_counterexample :
    RangeStmt env0 0 "" (.basic .str) (some "s") "" "i" none true "BODY" false
      = .error .unsupportedConstruct := by
  rfl

/-- C4 amended: for every range statement — any operand form (plain
identifier or materialised expression), with or without a value variable
(a blank value counting as none) — an array, slice or pointer-to-array
operand emits an explicit integer index loop `for (; k < B; ++k)` whose
bound `B` is the compile-time length for arrays and pointer-to-array and
`len(x)` for slices, declaring the key variable `int` exactly at `:=`
assignments and binding the value variable from the indexed operand
inside the loop; a range over a map — and likewise over a string —
raises the fatal UnsupportedConstruct error. -/
theorem RangeStmt_emission_amended (env : Env) (il : Nat)
    (label xStr keyS bodyS : String) (n : Int) (et kt vt : Typ)
    (isDefine bodyEnd : Bool) :
    (∀ (oxi : Option String) (vb : Option (Bool × String)),
      RangeStmt env il label (.array n et) oxi xStr keyS vb isDefine bodyS bodyEnd
      = .ok ("\x7b\n" ++
          (match oxi with
           | some _ => ""
           | none => if (rangeVal vb).isSome then
               indentS (il+1) ++ env.varDecl (.array n et) "x" xStr else "") ++
          indentS (il+1) ++ (if isDefine then "int " else "") ++ keyS ++ " = 0;\n" ++
          (if label ≠ "" then labelS (il+1) label "_continue" else "") ++
          indentS (il+1) ++ "for (; " ++ keyS ++ " < " ++ toString n ++ "; ++" ++ keyS ++ ") " ++
          (match rangeVal vb with
           | none => ""
           | some vs => "\x7b\n" ++ indentS (il+2) ++
               (if isDefine then
                 (env.tstr et).1 ++ " " ++ env.dimFuncPtr vs (env.tstr et).2
                else vs) ++
               " = " ++ (rangeXS oxi ++ "[" ++ keyS ++ "]") ++ ";\n" ++
               indentS (il+2)) ++
          bodyS ++ "\n" ++
          (if (rangeVal vb).isSome then indentS (il+1) ++ "\x7d\n" else "") ++
          indentS il ++ "\x7d\n" ++
          (if label ≠ "" then labelS il label "_break" else ""),
          bodyEnd)) ∧
    (∀ (oxi : Option String) (vb : Option (Bool × String)),
      RangeStmt env il label (.pointer (.array n et)) oxi xStr keyS vb isDefine bodyS bodyEnd
      = .ok ("\x7b\n" ++
          (match oxi with
           | some _ => ""
           | none => if (rangeVal vb).isSome then
               indentS (il+1) ++ env.varDecl (.pointer (.array n et)) "x" xStr else "") ++
          indentS (il+1) ++ (if isDefine then "int " else "") ++ keyS ++ " = 0;\n" ++
          (if label ≠ "" then labelS (il+1) label "_continue" else "") ++
          indentS (il+1) ++ "for (; " ++ keyS ++ " < " ++ toString n ++ "; ++" ++ keyS ++ ") " ++
          (match rangeVal vb with
           | none => ""
           | some vs => "\x7b\n" ++ indentS (il+2) ++
               (if isDefine then
                 (env.tstr et).1 ++ " " ++ env.dimFuncPtr vs (env.tstr et).2
                else vs) ++
               " = " ++ ("(*" ++ rangeXS oxi ++ ")" ++ "[" ++ keyS ++ "]") ++ ";\n" ++
               indentS (il+2)) ++
          bodyS ++ "\n" ++
          (if (rangeVal vb).isSome then indentS (il+1) ++ "\x7d\n" else "") ++
          indentS il ++ "\x7d\n" ++
          (if label ≠ "" then labelS il label "_break" else ""),
          bodyEnd)) ∧
    (∀ (oxi : Option String) (vb : Option (Bool × String)),
      RangeStmt env il label (.slice et) oxi xStr keyS vb isDefine bodyS bodyEnd
      = .ok ("\x7b\n" ++
          (match oxi with
           | some _ => ""
           | none => indentS (il+1) ++ env.varDecl (.slice et) "x" xStr) ++
          indentS (il+1) ++ (if isDefine then "int " else "") ++ keyS ++ " = 0;\n" ++
          (if label ≠ "" then labelS (il+1) label "_continue" else "") ++
          indentS (il+1) ++ "for (; " ++ keyS ++ " < " ++
            ("len(" ++ rangeXS oxi ++ ")") ++ "; ++" ++ keyS ++ ") " ++
          (match rangeVal vb with
           | none => ""
           | some vs => "\x7b\n" ++ indentS (il+2) ++
               (if isDefine then
                 (env.tstr et).1 ++ " " ++ env.dimFuncPtr vs (env.tstr et).2
                else vs) ++
               " = " ++ ("((" ++ (env.tstr et).1 ++
                 env.dimFuncPtr "" ("*" :: (env.tstr et).2) ++ ")" ++
                 rangeXS oxi ++ ".arr)" ++ "[" ++ keyS ++ "]") ++ ";\n" ++
               indentS (il+2)) ++
          bodyS ++ "\n" ++
          (if (rangeVal vb).isSome then indentS (il+1) ++ "\x7d\n" else "") ++
          indentS il ++ "\x7d\n" ++
          (if label ≠ "" then labelS il label "_break" else ""),
          bodyEnd)) ∧
    (∀ (oxi : Option String) (vb : Option (Bool × String)),
      RangeStmt env il label (.mapT kt vt) oxi xStr keyS vb isDefine bodyS bodyEnd
      = .error .unsupportedConstruct) ∧
    (∀ (oxi : Option String) (vb : Option (Bool × String)),
      RangeStmt env il label (.basic .str) oxi xStr keyS vb isDefine bodyS bodyEnd
      = .error .unsupportedConstruct) := by
  refine ⟨?_, ?_, ?_, ?_, ?_⟩ <;>
    (intro oxi vb
     rcases vb with _ | ⟨b, vs⟩ <;> try cases b) <;>
    rcases oxi with _ | xi <;>
    simp [RangeStmt, rangeArrayLen, rangeOK, rangeVal, rangeXS, indexExpr,
      derefPtr, elemT, underlying, strAssoc]

/-- C4 amended witness: the spec's range-over-array scenario
`for i, v := range a` with `a [4]int` (value variable bound inside the
loop), plus a range over a non-identifier slice operand, which is
materialised into a local `x` first. -/
theorem RangeStmt_emission_amended_witness :
    RangeStmt env0 0 "" (.array 4 (.basic .int32)) (some "a") "" "i"
        (some (false, "v")) true "BODY" false
      = .ok ("\x7b\n\tint i = 0;\n\tfor (; i < 4; ++i) " ++
          "\x7b\n\t\tint v = a[i];\n\t\tBODY\n\t\x7d\n\x7d\n", false) ∧
    RangeStmt env0 0 "" (.slice (.basic .int32)) none "s()" "i"
        (some (false, "v")) false "B" false
      = .ok ("\x7b\n\tint x = s();\n\ti = 0;\n\tfor (; i < len(x); ++i) " ++
          "\x7b\n\t\tv = ((int)x.arr)[i];\n\t\tB\n\t\x7d\n\x7d\n", false) := by
  constructor
  · have h := (RangeStmt_emission_amended env0 0 "" "" "i" "BODY" 4
      (.basic .int32) (.basic .int32) (.basic .int32) true false).1
      (some "a") (some (false, "v"))
    rw [h]
    rfl
  · have h := (RangeStmt_emission_amended env0 0 "" "s()" "i" "B" 4
      (.basic .int32) (.basic .int32) (.basic .int32) false false).2.2.1
      none (some (false, "v"))
    rw [h]
    rfl

/-- C8 counterexample: a go statement calling an ordinary function with no
arguments takes the fast path and emits `GO(f());` — no `wrap` function
and no `GOWAIT` macro, contradicting the claim that every go statement
emits `GOWAIT(wrap(…))`. -/
theorem GoStmt_fastpath_counterexample :
    GoStmt env0 0 "f" none "" none true [] = "GO(f());\n" ∧
    ¬ List.IsInfix "GOWAIT".data (GoStmt env0 0 "f" none "" none true []).data := by
  constructor
  · rfl
  · decide

/-- C8 amended: a go statement whose argument vector is non-empty
evaluates the callee value, the receiver and every call argument into
fresh locals of their printed types, synthesises a nested void function
`wrap` that first calls `goready()` and then invokes the target with
those locals, and emits `GOWAIT(wrap(…))`; a go of an ordinary,
parameterless function call instead takes a fast path emitting
`GO(f());`. -/
theorem GoStmt_emission_amended (env : Env) (il : Nat) (fs : String)
    (ft : Option Typ) (rs : String) (rt : Option Typ) (ordinaryIdent : Bool)
    (args : List (String × Typ))
    (hne : goArgv fs ft rs rt ordinaryIdent args ≠ []) :
    GoStmt env il fs ft rs rt ordinaryIdent args =
      "\x7b\n" ++
      indentS (il+1) ++ "void wrap(" ++
      joinSep ", " ((goArgv fs ft rs rt ordinaryIdent args).map (fun a =>
        (env.tstr a.2.2).1 ++ " " ++ env.dimFuncPtr a.1 (env.tstr a.2.2).2)) ++
      ") \x7b\n" ++
      indentS (il+2) ++ "goready();\n" ++
      indentS (il+2) ++ (goFun fs ft rt ordinaryIdent).1 ++ "(" ++
      joinSep ", " ((if (goFun fs ft rt ordinaryIdent).2.2.isSome then
          (goArgv fs ft rs rt ordinaryIdent args).tail
        else goArgv fs ft rs rt ordinaryIdent args).map (fun a => a.1)) ++
      ");\n" ++
      indentS (il+1) ++ "\x7d\n" ++
      concatS ((goArgv fs ft rs rt ordinaryIdent args).map (fun a =>
        indentS (il+1) ++ (env.tstr a.2.2).1 ++ " " ++
          env.dimFuncPtr a.1 (env.tstr a.2.2).2 ++ " = " ++ a.2.1 ++ ";\n")) ++
      indentS (il+1) ++ "GOWAIT(wrap(" ++
      joinSep ", " ((goArgv fs ft rs rt ordinaryIdent args).map (fun a => a.1)) ++
      "));\n" ++
      indentS il ++ "\x7d\n" ∧
    GoStmt env il fs ft "" none true [] = "GO(" ++ fs ++ "());\n" := by
  constructor
  · have hemp : (goArgv fs ft rs rt ordinaryIdent args).isEmpty = false := by
      cases h : goArgv fs ft rs rt ordinaryIdent args with
      | nil => exact absurd h hne
      | cons a rest => rfl
    simp only [GoStmt, hemp, Bool.false_eq_true, if_false]
  · rfl

/-- C8 amended witness: `go f(a)` for an ordinary function of one int
argument, at concrete inputs. -/
theorem GoStmt_emission_amended_witness :
    GoStmt env0 0 "f" none "" none true [("a", .basic .int32)] =
      "\x7b\n\tvoid wrap(int _0) \x7b\n\t\tgoready();\n\t\tf(_0);\n\t\x7d\n" ++
      "\tint _0 = a;\n\tGOWAIT(wrap(_0));\n\x7d\n" := by
  have h := (GoStmt_emission_amended env0 0 "f" none "" none true
    [("a", .basic .int32)] (by simp [goArgv, goFun, enumFrom])).1
  rw [h]
  rfl

theorem zipDef {α β : Type} (as : List α) (bs : List β) :
    as.zip bs = List.zipWith Prod.mk as bs := rfl

theorem tmpList_length : ∀ (uid n : Nat), (tmpList uid n).length = n
| _, 0 => rfl
| uid, Nat.succ n => by simp [tmpList, tmpList_length (uid+1) n]

theorem tempPhase_noBlank (env : Env) (il : Nat) :
    ∀ (items : List (String × String × Typ)) (uid : Nat) (first : Bool),
    (∀ x ∈ items, x.1 ≠ "_") →
    tempPhase env il items uid first =
      (declsWith env il first (items.map (fun x => (x.2.1, x.2.2)))
         (tmpList uid items.length),
       tmpList uid items.length, uid + items.length)
| [], uid, first, _ => by simp [tempPhase, declsWith, tmpList]
| (l, r, t) :: rest, uid, first, h => by
    have hl : l ≠ "_" := h (l, r, t) (List.mem_cons_self _ _)
    have ih := tempPhase_noBlank env il rest (uid+1) false
      (fun x hx => h x (List.mem_cons_of_mem _ hx))
    simp [tempPhase, hl, ih, declsWith, tmpList, uniqueId, strAssoc]
    omega

theorem storePhase_noBlank (il : Nat) (atok : String) :
    ∀ (ls tmps : List String) (started : Bool),
    (∀ l ∈ ls, l ≠ "_") →
    storePhase il atok false (ls.zip tmps) started =
      storesWith il atok started ls tmps
| [], _, started, _ => by simp [storePhase, storesWith]
| _ :: _, [], started, _ => by simp [storePhase, storesWith]
| l :: ls, tmp :: tmps, started, h => by
    have hl : l ≠ "_" := h l (List.mem_cons_self _ _)
    have ih := storePhase_noBlank il atok ls tmps true
      (fun x hx => h x (List.mem_cons_of_mem _ hx))
    simp only [zipDef] at ih
    simp [storePhase, storesWith, hl, ih, strAssoc]

theorem tempPhase_mixed (env : Env) (il : Nat) :
    ∀ (items : List (String × String × Typ)) (uid : Nat) (first : Bool),
    tempPhase env il items uid first =
      (mixedTemps env il first items uid, mixedRhs items uid,
       uid + nbCount items)
| [], uid, first => by simp [tempPhase, mixedTemps, mixedRhs, nbCount]
| (l, r, t) :: rest, uid, first => by
    by_cases hl : l = "_"
    · have ih := tempPhase_mixed env il rest uid false
      simp [tempPhase, mixedTemps, mixedRhs, nbCount, hl, ih, strAssoc]
    · have ih := tempPhase_mixed env il rest (uid+1) false
      simp [tempPhase, mixedTemps, mixedRhs, nbCount, hl, ih, uniqueId, strAssoc]
      omega

theorem storePhase_mixed (il : Nat) (atok : String) :
    ∀ (items : List (String × String × Typ)) (uid : Nat) (started : Bool),
    storePhase il atok false
        ((items.map (fun x => x.1)).zip (mixedRhs items uid)) started =
      mixedStores il atok started items uid
| [], uid, started => by simp [storePhase, storesWith, mixedRhs, mixedStores]
| (l, r, t) :: rest, uid, started => by
    by_cases hl : l = "_"
    · have ih := storePhase_mixed il atok rest uid true
      simp only [zipDef] at ih
      simp [storePhase, mixedStores, mixedRhs, hl, ih, strAssoc, zipDef]
    · have ih := storePhase_mixed il atok rest (uid+1) true
      simp only [zipDef] at ih
      simp [storePhase, mixedStores, mixedRhs, hl, ih, strAssoc, zipDef]

/-- C7 amended: in every non-define parallel assignment with at least two
components — blank LHS components allowed — the emission is the
temporary phase followed only then by the store loop: each RHS whose LHS
is not blank is evaluated into a fresh per-component temporary (`tmpN`,
consecutive unique ids) before any store is emitted, so each store reads
the pre-assignment values, while an RHS whose LHS is blank is wrapped in
`(void)(…)` and not stored into a temporary; when no LHS is blank the
emission moreover has exactly the shape the claim requires. -/
theorem AssignNonTuple_serialised (env : Env) (il uid : Nat) (s : String)
    (items : List (String × String × Typ))
    (hlen : 1 < items.length) :
    AssignNonTuple env il uid (.plain s) items =
      mixedTemps env il true items uid ++ indentS il ++
        mixedStores il (" " ++ s ++ " ") false items uid ∧
    ((∀ x ∈ items, x.1 ≠ "_") → s = "=" →
      C7ClaimForm env il items (AssignNonTuple env il uid (.plain s) items)) := by
  constructor
  · have htp := tempPhase_mixed env il items uid true
    have hsp := storePhase_mixed il (" " ++ s ++ " ") items uid false
    simp only [zipDef, strAssoc] at hsp
    simp [AssignNonTuple, hlen, htp, mutateAndNot, atokStr, hsp, strAssoc, zipDef]
  · intro hnb hs
    subst hs
    have hmain : AssignNonTuple env il uid (.plain "=") items =
        declsWith env il true (items.map (fun x => (x.2.1, x.2.2)))
            (tmpList uid items.length) ++
          indentS il ++
          storesWith il " = " false (items.map (fun x => x.1))
            (tmpList uid items.length) := by
      have htp := tempPhase_noBlank env il items uid true hnb
      have hsp := storePhase_noBlank il " = "
        (items.map (fun x => x.1)) (tmpList uid items.length) false
        (fun x hx => by
          rcases List.mem_map.mp hx with ⟨y, hy, rfl⟩
          exact hnb y hy)
      simp only [zipDef, strAssoc] at hsp
      have : (" " ++ "=" ++ " ") = " = " := rfl
      simp [AssignNonTuple, hlen, htp, mutateAndNot, atokStr, hsp, strAssoc,
        zipDef, this]
    exact ⟨tmpList uid items.length, tmpList_length uid items.length, hmain⟩

/-- C7 amended witness: the swap `a[i], a[j] = a[j], a[i]` serialised
through two distinct temporaries before the stores, and a mixed
assignment `_, y = h(), k()` in which the non-blank RHS is serialised
through a temporary while the blank one is only (void)-wrapped. -/
theorem AssignNonTuple_serialised_witness :
    AssignNonTuple env0 0 0 (.plain "=")
        [("a[i]", "a[j]", .basic .int32), ("a[j]", "a[i]", .basic .int32)] =
      "int tmp0 = a[j];\nint tmp1 = a[i];\na[i] = tmp0;\na[j] = tmp1;\n" ∧
    "tmp0" ≠ "tmp1" ∧
    AssignNonTuple env0 0 0 (.plain "=")
        [("_", "h()", .basic .int32), ("y", "k()", .basic .int32)] =
      "(void)(h());\nint tmp0 = k();\n(void)(h());\ny = tmp0;\n" := by
  refine ⟨?_, by decide, ?_⟩
  · have h := (AssignNonTuple_serialised env0 0 0 "="
      [("a[i]", "a[j]", .basic .int32), ("a[j]", "a[i]", .basic .int32)]
      (by decide)).1
    rw [h]
    rfl
  · have h := (AssignNonTuple_serialised env0 0 0 "="
      [("_", "h()", .basic .int32), ("y", "k()", .basic .int32)]
      (by decide)).1
    rw [h]
    rfl

/-- C7 counterexample: with a blank identifier among the left-hand sides
(`_, x = f(), g()`), the first RHS is never evaluated into a temporary —
the emission starts with `(void)(f());`, while any emission of the
claim's serialised-through-temporaries shape would start with the printed
type of the first component — so the claim's form is not satisfiable at
this input. -/
theorem AssignNonTuple_blank_counterexample :
    ¬ C7ClaimForm env0 0
        [("_", "f()", .basic .int32), ("x", "g()", .basic .int32)]
        (AssignNonTuple env0 0 0 (.plain "=")
          [("_", "f()", .basic .int32), ("x", "g()", .basic .int32)]) := by
  rintro ⟨tmps, hlen, heq⟩
  rcases tmps with _ | ⟨t0, _ | ⟨t1, _ | ⟨t2, ts⟩⟩⟩ <;> simp at hlen
  have hc := congrArg (fun s => s.data.take 4) heq
  simp only [strData] at hc
  have hL : (AssignNonTuple env0 0 0 (ATok.plain "=")
      [("_", "f()", Typ.basic .int32), ("x", "g()", Typ.basic .int32)]).data.take 4
      = ['(', 'v', 'o', 'i'] := rfl
  rw [hL] at hc
  simp [declsWith, storesWith, indentS, concatS, env0, strData,
    List.take, List.append_assoc] at hc

/-- C10: at the failing input `_, x = f(), g()` the translator emits
`(void)(f());` twice — once in the temporary phase and once in the store
loop — so the discarded RHS is evaluated twice; for a single assignment
`_ = e` it is evaluated once, and for a tuple-returning RHS the call is
evaluated once into a temporary with blank-bound components emitting no
code at all. -/
theorem AssignBlank_double_void_eval :
    AssignNonTuple env0 0 0 (.plain "=")
        [("_", "f()", .basic .int32), ("x", "g()", .basic .int32)] =
      "(void)(f());\nint tmp0 = g();\n(void)(f());\nx = tmp0;\n" ∧
    AssignNonTuple env0 0 0 (.plain "=") [("_", "f()", .basic .int32)] =
      "(void)(f());\n" ∧
    AssignTuple 0 0 .define "tup" "f()" ["_", "x$"] =
      "tup tmp0 = f();\nx$ = tmp0._1;\n" := by
  refine ⟨rfl, rfl, rfl⟩

end Gotoc
